import Mathlib

/-!
# go-fp: pipes, Maybe, Result and State

A shallow embedding of the four packages of `erikjuhani/go-fp` (`pipe`, `maybe`,
`result`, `state`) and theorems about them.

* Go generic functions are Lean polymorphic functions; a Go `func(A) B` handed in
  by the caller is a total Lean function `A → B`.
* A Go panic is the `Except.error` branch of `Except Panic`.
* The part of package `reflect` that `maybe` relies on is modelled over a small
  universe `GoAny` of interface values (section "Interface values").
-/

/-! ## Package `pipe` -/

namespace pipe

/-- Go `func Pipe[A, B any](ab func(A) B) func(A) B`. -/
def Pipe {A B : Type} (ab : A → B) : A → B :=
  fun a => ab a

/-- Go `Pipe2`: `bc(Pipe(ab)(a))`. -/
def Pipe2 {A B C : Type} (ab : A → B) (bc : B → C) : A → C :=
  fun a => bc (Pipe ab a)

/-- Go `Pipe3`: `cd(Pipe2(ab, bc)(a))`. -/
def Pipe3 {A B C D : Type} (ab : A → B) (bc : B → C) (cd : C → D) : A → D :=
  fun a => cd (Pipe2 ab bc a)

/-- Go `Pipe4`: `de(Pipe3(ab, bc, cd)(a))`. -/
def Pipe4 {A B C D E : Type} (ab : A → B) (bc : B → C) (cd : C → D) (de : D → E) : A → E :=
  fun a => de (Pipe3 ab bc cd a)

/-- Go `Pipe5`: `ef(Pipe4(ab, bc, cd, de)(a))`. -/
def Pipe5 {A B C D E F : Type} (ab : A → B) (bc : B → C) (cd : C → D) (de : D → E)
    (ef : E → F) : A → F :=
  fun a => ef (Pipe4 ab bc cd de a)

/-- Go `Pipe6`: `fg(Pipe5(ab, bc, cd, de, ef)(a))`. -/
def Pipe6 {A B C D E F G : Type} (ab : A → B) (bc : B → C) (cd : C → D) (de : D → E)
    (ef : E → F) (fg : F → G) : A → G :=
  fun a => fg (Pipe5 ab bc cd de ef a)

/-- Go `Pipe7`: `gh(Pipe6(ab, bc, cd, de, ef, fg)(a))`. -/
def Pipe7 {A B C D E F G H : Type} (ab : A → B) (bc : B → C) (cd : C → D) (de : D → E)
    (ef : E → F) (fg : F → G) (gh : G → H) : A → H :=
  fun a => gh (Pipe6 ab bc cd de ef fg a)

/-- Go `Pipe8`: `hi(Pipe7(ab, bc, cd, de, ef, fg, gh)(a))`. -/
def Pipe8 {A B C D E F G H I : Type} (ab : A → B) (bc : B → C) (cd : C → D) (de : D → E)
    (ef : E → F) (fg : F → G) (gh : G → H) (hi : H → I) : A → I :=
  fun a => hi (Pipe7 ab bc cd de ef fg gh a)

/-- Go `Pipe9`: `ij(Pipe8(ab, bc, cd, de, ef, fg, gh, hi)(a))`. -/
def Pipe9 {A B C D E F G H I J : Type} (ab : A → B) (bc : B → C) (cd : C → D) (de : D → E)
    (ef : E → F) (fg : F → G) (gh : G → H) (hi : H → I) (ij : I → J) : A → J :=
  fun a => ij (Pipe8 ab bc cd de ef fg gh hi a)

/-- Go `Pipe10`: `jk(Pipe9(ab, bc, cd, de, ef, fg, gh, hi, ij)(a))`. -/
def Pipe10 {A B C D E F G H I J K : Type} (ab : A → B) (bc : B → C) (cd : C → D)
    (de : D → E) (ef : E → F) (fg : F → G) (gh : G → H) (hi : H → I) (ij : I → J)
    (jk : J → K) : A → K :=
  fun a => jk (Pipe9 ab bc cd de ef fg gh hi ij a)

/-- Go `Pipe11`: `kl(Pipe10(ab, bc, cd, de, ef, fg, gh, hi, ij, jk)(a))`. -/
def Pipe11 {A B C D E F G H I J K L : Type} (ab : A → B) (bc : B → C) (cd : C → D)
    (de : D → E) (ef : E → F) (fg : F → G) (gh : G → H) (hi : H → I) (ij : I → J)
    (jk : J → K) (kl : K → L) : A → L :=
  fun a => kl (Pipe10 ab bc cd de ef fg gh hi ij jk a)

/-- Go `Pipe12`: `lm(Pipe11(ab, bc, cd, de, ef, fg, gh, hi, ij, jk, kl)(a))`. -/
def Pipe12 {A B C D E F G H I J K L M : Type} (ab : A → B) (bc : B → C) (cd : C → D)
    (de : D → E) (ef : E → F) (fg : F → G) (gh : G → H) (hi : H → I) (ij : I → J)
    (jk : J → K) (kl : K → L) (lm : L → M) : A → M :=
  fun a => lm (Pipe11 ab bc cd de ef fg gh hi ij jk kl a)

/-- A Go `int` on a 64-bit target: the arithmetic result `x` wrapped into
`[-2^63, 2^63)` (two's complement). -/
def wrapInt (x : Int) : Int :=
  (x + 2 ^ 63) % 2 ^ 64 - 2 ^ 63

/-- Test helper `double` of `pipe_test.go`: `x * 2` on Go `int`. -/
def double (x : Int) : Int :=
  wrapInt (x * 2)

/-- Test helper `amountAsDozenString` of `pipe_test.go`. -/
def amountAsDozenString (x : Int) : String :=
  if x = 12 then "dozen"
  else if x = 6 then "half a dozen"
  else "less or more than a dozen"

end pipe

/-! ## Interface values and the part of `reflect` the packages use

`maybe.Just`, `maybe.is_nil` and `result.Unwrap` inspect their generic argument
through `reflect.ValueOf(v)`, that is, through the conversion of `v` to `any`. The
universe below holds the interface values the development needs: booleans, `int`s,
strings and (typed) pointers, nested to any depth. -/

/-- Go types of the modelled universe. `iface` is the empty interface `any`; it
occurs as the element type of a pointer, never as the dynamic type of a value. -/
inductive GoType where
  | bool
  | int
  | string
  | pointer (elem : GoType)
  | iface
  deriving DecidableEq, Repr

/-- A value of Go type `any`: the nil interface or a value of a concrete type.
A non-nil pointer of type `*elem` carries its address and the value stored at the
pointee (for `elem = iface` that stored value is itself a value of type `any`,
possibly the nil interface). -/
inductive GoAny where
  | nil
  | bool (b : Bool)
  | int (n : Int)
  | string (s : String)
  | nilptr (elem : GoType)
  | ptr (elem : GoType) (addr : Nat) (target : GoAny)
  deriving DecidableEq, Repr

/-- A Go value of pointer type `*elem`: the nil pointer, or an address together
with the value stored there. -/
inductive Pointer (elem : GoType) where
  | nil
  | ref (addr : Nat) (target : GoAny)
  deriving DecidableEq, Repr

/-- What every Go type `A` provides at run time: its zero value, the conversion
`any(v)` of a value to an interface value, and the type assertion `x.(A)`
(`none` when the assertion panics). -/
class GoValue (A : Type) where
  /-- The zero value of the type (`var x A`). -/
  zero : A
  /-- The conversion `any(v)`. -/
  toAny : A → GoAny
  /-- The type assertion `x.(A)`; `none` is the run-time panic. -/
  assert : GoAny → Option A

instance : GoValue Bool where
  zero := false
  toAny := GoAny.bool
  assert
    | GoAny.bool b => some b
    | _ => none

/-- Go `int`. -/
instance : GoValue Int where
  zero := 0
  toAny := GoAny.int
  assert
    | GoAny.int n => some n
    | _ => none

instance : GoValue String where
  zero := ""
  toAny := GoAny.string
  assert
    | GoAny.string s => some s
    | _ => none

/-- Go `any`: the conversion is the identity, and `x.(any)` succeeds exactly when
`x` is not the nil interface. -/
instance : GoValue GoAny where
  zero := GoAny.nil
  toAny := fun v => v
  assert
    | GoAny.nil => none
    | v => some v

/-- Go `*elem`: `x.(*elem)` succeeds exactly when the dynamic type of `x` is
`*elem`. -/
instance (elem : GoType) : GoValue (Pointer elem) where
  zero := Pointer.nil
  toAny
    | Pointer.nil => GoAny.nilptr elem
    | Pointer.ref addr target => GoAny.ptr elem addr target
  assert
    | GoAny.nilptr e => if e = elem then some Pointer.nil else none
    | GoAny.ptr e addr target => if e = elem then some (Pointer.ref addr target) else none
    | _ => none

/-- Go `error`: the nil interface (`none`) or an error value, given by the message
its `Error()` method returns. -/
abbrev GoError := Option String

/-- The value a Go `panic` carries. -/
inductive Panic where
  /-- Go `panic("...")`: a string payload. -/
  | str (msg : String)
  /-- Go `panic(err)`: an `error` payload. -/
  | err (e : GoError)
  /-- A run-time panic: a failed type assertion or a misuse of `reflect`. -/
  | runtime (msg : String)
  deriving DecidableEq, Repr

namespace reflect

/-- Go `reflect.Kind`, restricted to the kinds of the universe. -/
inductive Kind where
  | Invalid
  | Bool
  | Int
  | String
  | Ptr
  deriving DecidableEq, Repr

/-- Go `reflect.Value`: a handle on an interface value (`nil` is the zero
`Value`). -/
structure Value where
  i : GoAny
  deriving DecidableEq, Repr

/-- Go `reflect.ValueOf(i any)`. -/
def ValueOf (i : GoAny) : Value :=
  ⟨i⟩

/-- Go `Value.Kind()`: the kind of the dynamic type, `Invalid` for the zero
`Value`. -/
def Value.Kind (v : Value) : Kind :=
  match v.i with
  | GoAny.nil => Kind.Invalid
  | GoAny.bool _ => Kind.Bool
  | GoAny.int _ => Kind.Int
  | GoAny.string _ => Kind.String
  | GoAny.nilptr _ => Kind.Ptr
  | GoAny.ptr _ _ _ => Kind.Ptr

/-- Go `Value.IsNil()` for a `Value` of kind `Ptr` (the callers check the kind
first; on the other kinds of the universe Go panics, here it answers `false`). -/
def Value.IsNil (v : Value) : Bool :=
  match v.i with
  | GoAny.nilptr _ => true
  | _ => false

/-- Go `Value.Elem()` for a non-nil pointer: the `Value` of the pointee (the callers
check the kind and `IsNil` first; otherwise this is the zero `Value`). -/
def Value.Elem (v : Value) : Value :=
  match v.i with
  | GoAny.ptr _ _ target => ⟨target⟩
  | _ => ⟨GoAny.nil⟩

/-- Go `Value.Interface()`: the value as an `any`. -/
def Value.Interface (v : Value) : GoAny :=
  v.i

/-- Go `reflect.TypeOf(i any)`: the dynamic type, `none` (a nil `Type`) for the nil
interface. -/
def TypeOf (i : GoAny) : Option GoType :=
  match i with
  | GoAny.nil => none
  | GoAny.bool _ => some GoType.bool
  | GoAny.int _ => some GoType.int
  | GoAny.string _ => some GoType.string
  | GoAny.nilptr elem => some (GoType.pointer elem)
  | GoAny.ptr elem _ _ => some (GoType.pointer elem)

/-- Go `reflect.Zero(typ)`: a `Value` holding the zero value of `typ`; it panics on
a nil `Type`. -/
def Zero (typ : Option GoType) : Except Panic Value :=
  match typ with
  | none => Except.error (Panic.runtime "reflect: Zero(nil)")
  | some GoType.bool => Except.ok ⟨GoAny.bool false⟩
  | some GoType.int => Except.ok ⟨GoAny.int 0⟩
  | some GoType.string => Except.ok ⟨GoAny.string ""⟩
  | some (GoType.pointer elem) => Except.ok ⟨GoAny.nilptr elem⟩
  | some GoType.iface => Except.ok ⟨GoAny.nil⟩

/-- The kind `reflect.ValueOf(v).Kind()` of a value of any Go type. -/
def kindOf {A : Type} [GoValue A] (v : A) : Kind :=
  (ValueOf (GoValue.toAny v)).Kind

end reflect

deriving instance DecidableEq for Except

/-! ## Package `maybe` -/

namespace maybe

/-- Go `type Maybe[A any] struct{ val *A }`: `none` is the nil pointer, `some x` a
pointer to a cell holding `x`. -/
structure Maybe (A : Type) where
  val : Option A
  deriving DecidableEq, Repr

/-- The payload of the panic in `Just`. -/
def nilJustMessage : String :=
  "trying to insert `nil` an absent value as present `Just` value"

/-- The run-time panic of a failed type assertion `x.(A)`. -/
def assertPanic : Panic :=
  Panic.runtime "interface conversion"

/-- Go `func Just[A any](v A) Maybe[A]`. -/
def Just {A : Type} [GoValue A] (v : A) : Except Panic (Maybe A) :=
  if (reflect.ValueOf (GoValue.toAny v)).Kind = reflect.Kind.Ptr then
    let rv := reflect.ValueOf (GoValue.toAny v)
    if rv.IsNil then
      Except.error (Panic.str nilJustMessage)
    else
      match (GoValue.assert rv.Elem.Interface : Option A) with
      | some x => Except.ok ⟨some x⟩
      | none => Except.error assertPanic
  else
    Except.ok ⟨some v⟩

/-- Go `func Nothing[A any]() Maybe[A]`. -/
def Nothing {A : Type} : Maybe A :=
  ⟨none⟩

/-- Go `func is_nil(v any) bool`. -/
def is_nil (v : GoAny) : Bool :=
  if (reflect.ValueOf v).Kind = reflect.Kind.Ptr then
    (reflect.ValueOf v).IsNil
  else
    false

/-- Go `func From[A any](val A, ok ...bool) Maybe[A]`; `ok` is the variadic slice. -/
def From {A : Type} [GoValue A] (val : A) (ok : List Bool) : Except Panic (Maybe A) :=
  if is_nil (GoValue.toAny val) || (decide (ok.length > 0) && !(ok.getD 0 true)) then
    Except.ok Nothing
  else
    Just val

/-- Go `func Map[A, B any](f func(A) B) func(Maybe[A]) Maybe[B]`. -/
def Map {A B : Type} [GoValue B] (f : A → B) : Maybe A → Except Panic (Maybe B) :=
  fun m =>
    match m.val with
    | some x => Just (f x)
    | none => Except.ok Nothing

/-- Go `func Fmap[A, B any](f func(A) Maybe[B]) func(Maybe[A]) Maybe[B]`. -/
def Fmap {A B : Type} (f : A → Maybe B) : Maybe A → Maybe B :=
  fun m =>
    match m.val with
    | some x => f x
    | none => Nothing

/-- Go `func Match[A, B any](Nothing func() B, Just func(A) B) func(Maybe[A]) B`. -/
def Match {A B : Type} (onNothing : Unit → B) (onJust : A → B) : Maybe A → B :=
  fun m =>
    match m.val with
    | some x => onJust x
    | none => onNothing ()

/-- Test helper `head` of `maybe_test.go`. -/
def head {T : Type} [GoValue T] (x : List T) : Except Panic (Maybe T) :=
  match x with
  | x0 :: _ => Just x0
  | [] => Except.ok Nothing

/-- A callback that tells a pointer held in an `any` from every other value: present
`true` on a pointer, `Nothing` otherwise. -/
def presentIfPointer (v : GoAny) : Maybe Bool :=
  if reflect.kindOf v = reflect.Kind.Ptr then ⟨some true⟩ else Nothing

/-- A callback in the manner of `inverse` of `maybe_test.go`, on `int`s: present
for a positive argument, `Nothing` otherwise. -/
def positiveOnly (x : Int) : Maybe Int :=
  if x > 0 then ⟨some x⟩ else Nothing

/-- A function whose result is a pointer held in an `any`: a pointer to its
argument. -/
def addressOf (n : Int) : GoAny :=
  GoAny.ptr GoType.int 1 (GoAny.int n)

/-- Tells whether an `any` holds a pointer. -/
def holdsPointer (v : GoAny) : Bool :=
  decide (reflect.kindOf v = reflect.Kind.Ptr)

end maybe

/-! ## Package `result` -/

namespace result

/-- Go `type Result[A any] struct { err error; val A }`. -/
structure Result (A : Type) where
  err : GoError
  val : A
  deriving DecidableEq, Repr

/-- Go `func IsOk[A any](m Result[A]) bool`: `m.err == nil`. -/
def IsOk {A : Type} (m : Result A) : Bool :=
  decide (m.err = none)

/-- Go `func IsErr[A any](m Result[A]) bool`: `m.err != nil`. -/
def IsErr {A : Type} (m : Result A) : Bool :=
  decide (m.err ≠ none)

/-- Go `func Ok[A any](val A) Result[A]`: `Result[A]{val: val}`. -/
def Ok {A : Type} (val : A) : Result A :=
  { err := none, val := val }

/-- Go `func Err[A any](err error) Result[A]`: `Result[A]{err: err}`, the value
field being the zero value of `A`. -/
def Err {A : Type} [GoValue A] (err : GoError) : Result A :=
  { err := err, val := GoValue.zero }

/-- Go `func From[A any](val A, err ...error) Result[A]`; `err` is the variadic
slice. -/
def From {A : Type} [GoValue A] (val : A) (err : List GoError) : Result A :=
  if err.length = 0 ∨ err.getD 0 none = none then
    Ok val
  else
    Err (err.getD 0 none)

/-- Go `func Unwrap[A any](m Result[A]) A`: on an error the zero value is built by
`reflect.Zero(reflect.TypeOf(m.val)).Interface().(A)`. -/
def Unwrap {A : Type} [GoValue A] (m : Result A) : Except Panic A :=
  if IsErr m then
    match reflect.Zero (reflect.TypeOf (GoValue.toAny m.val)) with
    | Except.error p => Except.error p
    | Except.ok z =>
      match (GoValue.assert z.Interface : Option A) with
      | some x => Except.ok x
      | none => Except.error (Panic.runtime "interface conversion")
  else
    Except.ok m.val

/-- Go `func Unsafe_Unwrap[A any](m Result[A]) A`: `panic(m.err)` on an error. -/
def Unsafe_Unwrap {A : Type} (m : Result A) : Except Panic A :=
  if IsErr m then
    Except.error (Panic.err m.err)
  else
    Except.ok m.val

/-- Go `func Map[A, B any](f func(A) B) func(Result[A]) Result[B]`. -/
def Map {A B : Type} [GoValue B] (f : A → B) : Result A → Result B :=
  fun m =>
    if IsErr m then
      Err m.err
    else
      Ok (f m.val)

/-- Go `func Fmap[A, B any](f func(A) Result[B]) func(Result[A]) Result[B]`. -/
def Fmap {A B : Type} [GoValue B] (f : A → Result B) : Result A → Result B :=
  fun m =>
    if IsErr m then
      Err m.err
    else
      f m.val

/-- Go `func Match[A, B any](Error func(err error) B, Ok func(val A) B)
func(Result[A]) B`. -/
def Match {A B : Type} (onError : GoError → B) (onOk : A → B) : Result A → B :=
  fun m =>
    if IsErr m then
      onError m.err
    else
      onOk m.val

/-- Test helper `head` of `result_test.go`. -/
def head {T : Type} [GoValue T] (slice : List T) : Result T :=
  match slice with
  | x0 :: _ => Ok x0
  | [] => Err (some "cannot get head from an empty array")

/-- Go `strings.ToUpper`, as the tests use it, on ASCII text: every character is
mapped to its upper case. -/
def ToUpper (s : String) : String :=
  String.mk (s.data.map Char.toUpper)

/-- A chain of `Map` and `Fmap` steps leading from `Result A` to `Result C`; the
value type may change at every step. The chain records the Go types (their
`GoValue` structure) it starts from and ends in. -/
inductive Chain : (A C : Type) → GoValue A → GoValue C → Type 1 where
  | done {A : Type} [iA : GoValue A] : Chain A A iA iA
  | map {A B C : Type} [iA : GoValue A] [iB : GoValue B] [iC : GoValue C]
      (f : A → B) (rest : Chain B C iB iC) : Chain A C iA iC
  | fmap {A B C : Type} [iA : GoValue A] [iB : GoValue B] [iC : GoValue C]
      (f : A → Result B) (rest : Chain B C iB iC) : Chain A C iA iC

/-- Runs a chain: every step is applied to the output of the step before it. -/
def Chain.run {A C : Type} {iA : GoValue A} {iC : GoValue C} :
    Chain A C iA iC → Result A → Result C
  | Chain.done, m => m
  | Chain.map f rest, m => rest.run (Map f m)
  | Chain.fmap f rest, m => rest.run (Fmap f m)

/-- A callback in the manner of `inverse` of `result_test.go`, on `int`s: the error
"division by zero" on 0, `Ok` of the argument otherwise. -/
def nonZero (x : Int) : Result Int :=
  if x = 0 then Err (some "division by zero") else Ok x

/-- The two-step chain `Map(+1)` then `Fmap(nonZero)` on `int`s. -/
def incrementThenNonZero : Chain Int Int inferInstance inferInstance :=
  Chain.map (fun n : Int => n + 1) (Chain.fmap nonZero Chain.done)

/-- The Results a caller can build with the package: the results of `Ok`, `Err` and
`From`, and of `Map(f)` and `Fmap(f)` applied to such a Result, the callback of
`Fmap` returning such Results itself. The predicate is relative to the Go type
(the `GoValue` structure) of the value. -/
inductive Built : (A : Type) → GoValue A → Result A → Prop where
  | ok {A : Type} [iA : GoValue A] (v : A) : Built A iA (Ok v)
  | err {A : Type} [iA : GoValue A] (e : GoError) : Built A iA (Err e)
  | ofFrom {A : Type} [iA : GoValue A] (v : A) (errs : List GoError) :
      Built A iA (From v errs)
  | map {A B : Type} [iA : GoValue A] [iB : GoValue B] (f : A → B) (m : Result A) :
      Built A iA m → Built B iB (Map f m)
  | fmap {A B : Type} [iA : GoValue A] [iB : GoValue B] (f : A → Result B)
      (m : Result A) :
      Built A iA m → (∀ a, Built B iB (f a)) → Built B iB (Fmap f m)

/-- An error-state Result holds no stale success value: if the error field is
non-nil, the value field is the zero value of `A`. -/
def NoStaleValue {A : Type} [GoValue A] (m : Result A) : Prop :=
  m.err ≠ none → m.val = GoValue.zero

end result

/-! ## Package `state` -/

namespace state

/-- Go `type State[A, S any] func(S) (A, S)`. -/
abbrev State (A S : Type) := S → A × S

/-- Go `type Void struct{}`. -/
structure Void where
  deriving DecidableEq, Repr

/-- Go `func Run[S any](s S) State[S, S]`. -/
def Run {S : Type} (s : S) : State S S :=
  fun _ => (s, s)

/-- Go `func Get[S any](S) State[S, S]`; the parameter is unnamed and unused. -/
def Get {S : Type} (_ : S) : State S S :=
  fun s => (s, s)

/-- Go `func GetS[A, S any](f func(S) A) State[A, S]`. -/
def GetS {A S : Type} (f : S → A) : State A S :=
  fun s => (f s, s)

/-- Go `func Exec[A, S any](s S) func(State[A, S]) S`. -/
def Exec {A S : Type} (s : S) : State A S → S :=
  fun m => (m s).2

/-- Go `func Eval[A, S any](s S) func(State[A, S]) A`. -/
def Eval {A S : Type} (s : S) : State A S → A :=
  fun m => (m s).1

/-- Go `func Map[S, A, B any](f func(A) B) func(State[A, S]) State[B, S]`. -/
def Map {S A B : Type} (f : A → B) : State A S → State B S :=
  fun m => fun s1 => (f (m s1).1, (m s1).2)

/-- Go `func Fmap[A, B, S any](f func(A) State[B, S]) func(State[A, S]) State[B, S]`. -/
def Fmap {A B S : Type} (f : A → State B S) : State A S → State B S :=
  fun m => fun s1 => f (m s1).1 (m s1).2

/-- Go `func Modify[S any](f func(S) S) State[Void, S]`. -/
def Modify {S : Type} (f : S → S) : State Void S :=
  fun s => (Void.mk, f s)

/-- Go `func Put[A any](s A) State[Void, A]`. -/
def Put {A : Type} (s : A) : State Void A :=
  fun _ => (Void.mk, s)

/-- Go `int` addition `a + b` on a 64-bit target. -/
def addInt (a b : Int) : Int :=
  pipe.wrapInt (a + b)

/-- The `counter` of `TestPut` in `state_test.go`:
`Pipe3(Run[int], Fmap(func(s int) State[Void, int] { return Put(s + 1) }), Exec[Void](0))`. -/
def putCounter : Int → Int :=
  pipe.Pipe3 (Run : Int → State Int Int)
    (Fmap (fun s : Int => Put (addInt s 1)))
    (Exec (0 : Int) : State Void Int → Int)

/-- The `counter` of `TestModify` in `state_test.go`:
`Pipe4(Run[int], Fmap(Get[int]), Fmap(func(int) State[Void, int] { return Modify(s -> s + 1) }),
Exec[Void](0))`. -/
def modifyCounter : Int → Int :=
  pipe.Pipe4 (Run : Int → State Int Int)
    (Fmap (Get : Int → State Int Int))
    (Fmap (fun _ : Int => Modify (fun s : Int => addInt s 1)))
    (Exec (0 : Int) : State Void Int → Int)

/-- The `increment` of `TestGetS` in `state_test.go`:
`Pipe3(Run[int], Fmap(func(int) State[int, int] { return GetS(s -> s + 1) }), Eval[int](0))`. -/
def getsIncrement : Int → Int :=
  pipe.Pipe3 (Run : Int → State Int Int)
    (Fmap (fun _ : Int => GetS (fun s : Int => addInt s 1)))
    (Eval (0 : Int) : State Int Int → Int)

/-- The `add` of `TestMap` in `state_test.go`: `func(a int) func(b int) int`. -/
def add (a : Int) : Int → Int :=
  fun b => addInt a b

/-- The `addTen` of `TestMap` in `state_test.go`:
`Pipe3(Run[int], Map[int](add(10)), Eval[int](0))`. -/
def addTen : Int → Int :=
  pipe.Pipe3 (Run : Int → State Int Int)
    (Map (add 10))
    (Eval (0 : Int) : State Int Int → Int)

end state

/-! ## Theorems: package `pipe` -/

namespace pipe

/-- C1: for every arity k from 1 to 12, the k-ary pipe of type-chained functions
f1..fk applied to a equals fk(...(f2(f1(a)))...), the first argument being applied
first, also when the steps change the type; Pipe12 of twelve doublings applied to 1
gives 4096 and Pipe2(double, amountAsDozenString)(3) is "half a dozen". -/
theorem pipe_left_to_right
    {A0 A1 A2 A3 A4 A5 A6 A7 A8 A9 A10 A11 A12 : Type}
    (f1 : A0 → A1) (f2 : A1 → A2) (f3 : A2 → A3) (f4 : A3 → A4) (f5 : A4 → A5)
    (f6 : A5 → A6) (f7 : A6 → A7) (f8 : A7 → A8) (f9 : A8 → A9) (f10 : A9 → A10)
    (f11 : A10 → A11) (f12 : A11 → A12) (a : A0) :
    Pipe f1 a = f1 a
    ∧ Pipe2 f1 f2 a = f2 (f1 a)
    ∧ Pipe3 f1 f2 f3 a = f3 (f2 (f1 a))
    ∧ Pipe4 f1 f2 f3 f4 a = f4 (f3 (f2 (f1 a)))
    ∧ Pipe5 f1 f2 f3 f4 f5 a = f5 (f4 (f3 (f2 (f1 a))))
    ∧ Pipe6 f1 f2 f3 f4 f5 f6 a = f6 (f5 (f4 (f3 (f2 (f1 a)))))
    ∧ Pipe7 f1 f2 f3 f4 f5 f6 f7 a = f7 (f6 (f5 (f4 (f3 (f2 (f1 a))))))
    ∧ Pipe8 f1 f2 f3 f4 f5 f6 f7 f8 a = f8 (f7 (f6 (f5 (f4 (f3 (f2 (f1 a)))))))
    ∧ Pipe9 f1 f2 f3 f4 f5 f6 f7 f8 f9 a
        = f9 (f8 (f7 (f6 (f5 (f4 (f3 (f2 (f1 a))))))))
    ∧ Pipe10 f1 f2 f3 f4 f5 f6 f7 f8 f9 f10 a
        = f10 (f9 (f8 (f7 (f6 (f5 (f4 (f3 (f2 (f1 a)))))))))
    ∧ Pipe11 f1 f2 f3 f4 f5 f6 f7 f8 f9 f10 f11 a
        = f11 (f10 (f9 (f8 (f7 (f6 (f5 (f4 (f3 (f2 (f1 a))))))))))
    ∧ Pipe12 f1 f2 f3 f4 f5 f6 f7 f8 f9 f10 f11 f12 a
        = f12 (f11 (f10 (f9 (f8 (f7 (f6 (f5 (f4 (f3 (f2 (f1 a)))))))))))
    ∧ Pipe12 double double double double double double double double double double
        double double 1 = 4096
    ∧ Pipe2 double amountAsDozenString 3 = "half a dozen" := by
  refine ⟨rfl, rfl, rfl, rfl, rfl, rfl, rfl, rfl, rfl, rfl, rfl, rfl, ?_, ?_⟩
  · norm_num [Pipe12, Pipe11, Pipe10, Pipe9, Pipe8, Pipe7, Pipe6, Pipe5, Pipe4, Pipe3, Pipe2,
      Pipe, double, wrapInt]
  · norm_num [Pipe2, Pipe, double, wrapInt, amountAsDozenString]

/-- C2: for every arity n from 3 to 12 the n-ary pipe is pointwise equal to
Pipe2 of the (n-1)-ary pipe of the first n-1 functions and the last function; the
nesting direction does not matter, Pipe3(f, g, h)(a) = Pipe2(Pipe2(f, g), h)(a)
= Pipe2(f, Pipe2(g, h))(a); and Pipe(f)(a) = f(a). -/
theorem pipe_nested_two_ary
    {A0 A1 A2 A3 A4 A5 A6 A7 A8 A9 A10 A11 A12 : Type}
    (f1 : A0 → A1) (f2 : A1 → A2) (f3 : A2 → A3) (f4 : A3 → A4) (f5 : A4 → A5)
    (f6 : A5 → A6) (f7 : A6 → A7) (f8 : A7 → A8) (f9 : A8 → A9) (f10 : A9 → A10)
    (f11 : A10 → A11) (f12 : A11 → A12) (a : A0) :
    Pipe3 f1 f2 f3 a = Pipe2 (Pipe2 f1 f2) f3 a
    ∧ Pipe4 f1 f2 f3 f4 a = Pipe2 (Pipe3 f1 f2 f3) f4 a
    ∧ Pipe5 f1 f2 f3 f4 f5 a = Pipe2 (Pipe4 f1 f2 f3 f4) f5 a
    ∧ Pipe6 f1 f2 f3 f4 f5 f6 a = Pipe2 (Pipe5 f1 f2 f3 f4 f5) f6 a
    ∧ Pipe7 f1 f2 f3 f4 f5 f6 f7 a = Pipe2 (Pipe6 f1 f2 f3 f4 f5 f6) f7 a
    ∧ Pipe8 f1 f2 f3 f4 f5 f6 f7 f8 a = Pipe2 (Pipe7 f1 f2 f3 f4 f5 f6 f7) f8 a
    ∧ Pipe9 f1 f2 f3 f4 f5 f6 f7 f8 f9 a
        = Pipe2 (Pipe8 f1 f2 f3 f4 f5 f6 f7 f8) f9 a
    ∧ Pipe10 f1 f2 f3 f4 f5 f6 f7 f8 f9 f10 a
        = Pipe2 (Pipe9 f1 f2 f3 f4 f5 f6 f7 f8 f9) f10 a
    ∧ Pipe11 f1 f2 f3 f4 f5 f6 f7 f8 f9 f10 f11 a
        = Pipe2 (Pipe10 f1 f2 f3 f4 f5 f6 f7 f8 f9 f10) f11 a
    ∧ Pipe12 f1 f2 f3 f4 f5 f6 f7 f8 f9 f10 f11 f12 a
        = Pipe2 (Pipe11 f1 f2 f3 f4 f5 f6 f7 f8 f9 f10 f11) f12 a
    ∧ Pipe3 f1 f2 f3 a = Pipe2 f1 (Pipe2 f2 f3) a
    ∧ Pipe2 (Pipe2 f1 f2) f3 a = Pipe2 f1 (Pipe2 f2 f3) a
    ∧ Pipe f1 a = f1 a :=
  ⟨rfl, rfl, rfl, rfl, rfl, rfl, rfl, rfl, rfl, rfl, rfl, rfl, rfl⟩

end pipe

/-! ## Theorems: package `maybe` -/

namespace maybe

/-- A value that is not of pointer kind is wrapped as it is. -/
theorem Just_of_kind_ne_ptr {A : Type} [GoValue A] (v : A)
    (h : reflect.kindOf v ≠ reflect.Kind.Ptr) : Just v = Except.ok ⟨some v⟩ := by
  unfold Just
  exact if_neg h

/-- An `int` is not of pointer kind. -/
theorem kindOf_int_ne_ptr (n : Int) : reflect.kindOf n ≠ reflect.Kind.Ptr := by
  show reflect.Kind.Int ≠ reflect.Kind.Ptr
  decide

/-- A non-nil pointer held in an `any` is replaced by its pointee. -/
theorem Just_any_ptr (elem : GoType) (addr : Nat) (target : GoAny)
    (h : target ≠ GoAny.nil) :
    Just (GoAny.ptr elem addr target) = Except.ok ⟨some target⟩ := by
  cases target with
  | nil => exact absurd rfl h
  | bool b => rfl
  | int n => rfl
  | string s => rfl
  | nilptr e => rfl
  | ptr e a t => rfl

/-- The result of `Just` is never the absent value. -/
theorem Just_ne_Nothing {A : Type} [GoValue A] (v : A) : Just v ≠ Except.ok Nothing := by
  unfold Just Nothing
  intro h
  split at h
  · simp only at h
    split at h
    · cases h
    · split at h
      · cases h
      · cases h
  · cases h

/-- C3 (counterexample): with `A = any` and `v` a pointer to the `int` 0, matching
`Just(v)` with the identity as `Just` callback gives the pointee 0, not `v`. -/
theorem match_just_pointer_counterexample :
    Except.map (Match (fun _ => GoAny.nil) (fun x => x))
        (Just (GoAny.ptr GoType.int 1 (GoAny.int 0)))
      = Except.ok (GoAny.int 0)
    ∧ Except.map (Match (fun _ => GoAny.nil) (fun x => x))
        (Just (GoAny.ptr GoType.int 1 (GoAny.int 0)))
      ≠ Except.ok ((fun x => x) (GoAny.ptr GoType.int 1 (GoAny.int 0))) := by
  constructor
  · rfl
  · decide

/-- C3 (amended): `Match(onNothing, onJust)(Just(v)) = onJust(v)` for every `v` that
is not of pointer kind; for a non-nil pointer held in an `any` whose pointee is not
the nil interface the `Just` callback receives the pointee; and
`Match(onNothing, onJust)(Nothing()) = onNothing()`. -/
theorem match_round_trip {A B : Type} [GoValue A] (onNothing : Unit → B)
    (onJust : A → B) (v : A) (onAny : GoAny → B) (elem : GoType) (addr : Nat)
    (target : GoAny) :
    (reflect.kindOf v ≠ reflect.Kind.Ptr →
      Except.map (Match onNothing onJust) (Just v) = Except.ok (onJust v))
    ∧ (target ≠ GoAny.nil →
      Except.map (Match onNothing onAny) (Just (GoAny.ptr elem addr target))
        = Except.ok (onAny target))
    ∧ Match onNothing onJust Nothing = onNothing () := by
  refine ⟨fun hv => ?_, fun ht => ?_, rfl⟩
  · rw [Just_of_kind_ne_ptr v hv]
    rfl
  · rw [Just_any_ptr elem addr target ht]
    rfl

/-- Witness of `match_round_trip`: the `int` 5, and a pointer to the `int` 0 held in
an `any`. -/
theorem match_round_trip_witness :
    reflect.kindOf (5 : Int) ≠ reflect.Kind.Ptr
    ∧ GoAny.int 0 ≠ GoAny.nil
    ∧ Except.map (Match (fun _ => GoAny.nil) (fun x => GoAny.int (x + 1))) (Just (5 : Int))
        = Except.ok (GoAny.int 6)
    ∧ Except.map (Match (fun _ => GoAny.nil) (fun x => x))
        (Just (GoAny.ptr GoType.int 1 (GoAny.int 0))) = Except.ok (GoAny.int 0)
    ∧ Match (fun _ => GoAny.nil) (fun x => GoAny.int (x + 1)) (Nothing : Maybe Int)
        = GoAny.nil :=
  ⟨by decide, by decide,
    (match_round_trip (fun _ => GoAny.nil) (fun x => GoAny.int (x + 1)) (5 : Int)
      (fun x => x) GoType.int 1 (GoAny.int 0)).1 (by decide),
    (match_round_trip (fun _ => GoAny.nil) (fun x => GoAny.int (x + 1)) (5 : Int)
      (fun x => x) GoType.int 1 (GoAny.int 0)).2.1 (by decide),
    (match_round_trip (fun _ => GoAny.nil) (fun x => GoAny.int (x + 1)) (5 : Int)
      (fun x => x) GoType.int 1 (GoAny.int 0)).2.2⟩

/-- C4: at the type parameter `A = *int` and a non-nil pointer to 0, `Just` does not
return a present value: the type assertion `.(A)` on the pointee panics. The rest of
the claim holds: a nil pointer makes `Just` panic with its own message, whether the
pointer is held in a pointer type or in an `any`, and `Just` never returns
`Nothing`. -/
theorem just_pointer_type_panics :
    Just (Pointer.ref 1 (GoAny.int 0) : Pointer GoType.int) = Except.error assertPanic
    ∧ (∀ elem : GoType,
        Just (Pointer.nil : Pointer elem) = Except.error (Panic.str nilJustMessage))
    ∧ (∀ elem : GoType,
        Just (GoAny.nilptr elem) = Except.error (Panic.str nilJustMessage))
    ∧ (∀ (A : Type) (inst : GoValue A) (v : A), @Just A inst v ≠ Except.ok Nothing) :=
  ⟨rfl, fun _ => rfl, fun _ => rfl, fun _ _ v => Just_ne_Nothing v⟩

/-- C5: at the type parameter `A = *int` and a non-nil pointer to 0, `From` aborts,
with the flag `true` and with no flag: `Just` panics in the type assertion. The
truth table of the absent result holds: `From` returns `Nothing` exactly when the
value is a nil pointer or a first flag is supplied and false. -/
theorem from_pointer_type_panics :
    From (Pointer.ref 1 (GoAny.int 0) : Pointer GoType.int) [true]
      = Except.error assertPanic
    ∧ From (Pointer.ref 1 (GoAny.int 0) : Pointer GoType.int) []
      = Except.error assertPanic
    ∧ (∀ (A : Type) (inst : GoValue A) (v : A) (ok : List Bool),
        @From A inst v ok = Except.ok Nothing
          ↔ (is_nil (GoValue.toAny v) = true ∨ ok.head? = some false)) := by
  refine ⟨rfl, rfl, fun A inst v ok => ?_⟩
  unfold From
  cases hn : is_nil (GoValue.toAny v) with
  | true => simp
  | false =>
    cases ok with
    | nil => simpa using Just_ne_Nothing v
    | cons b rest =>
      cases b with
      | true => simpa using Just_ne_Nothing v
      | false => simp

/-- C6 (counterexample): for the one-element list of `any` holding a pointer to the
`int` 0 and `f` the identity, matching `Map(f)(head(xs))` with the identity gives
the pointee 0, not `f(xs[0])`, the pointer. -/
theorem map_head_pointer_counterexample :
    Except.map (Match (fun _ => GoAny.nil) (fun y => y))
        (head [GoAny.ptr GoType.int 1 (GoAny.int 0)] >>= Map (fun x => x))
      = Except.ok (GoAny.int 0)
    ∧ Except.map (Match (fun _ => GoAny.nil) (fun y => y))
        (head [GoAny.ptr GoType.int 1 (GoAny.int 0)] >>= Map (fun x => x))
      ≠ Except.ok ((fun y => y) ((fun x => x) (GoAny.ptr GoType.int 1 (GoAny.int 0)))) := by
  constructor
  · rfl
  · decide

/-- C6 (amended): `Map(f)` applied to a present value holding `x` yields `Just(f(x))`
and applied to `Nothing` yields `Nothing` regardless of `f`; for `x` not of pointer
kind `Map(f)(Just(x)) = Just(f(x))`; consequently, for a list with head `x`,
`Match(onNothing, onJust)(Map(f)(head(xs))) = onJust(f(x))` when neither `x` nor
`f(x)` is of pointer kind, and `onNothing()` for the empty list. -/
theorem map_just_nothing {A B C : Type} [GoValue A] [GoValue B] (f : A → B) (x : A)
    (rest : List A) (onNothing : Unit → C) (onJust : B → C) :
    Map f ⟨some x⟩ = Just (f x)
    ∧ Map f (Nothing : Maybe A) = Except.ok Nothing
    ∧ (reflect.kindOf x ≠ reflect.Kind.Ptr → (Just x >>= Map f) = Just (f x))
    ∧ (reflect.kindOf x ≠ reflect.Kind.Ptr → reflect.kindOf (f x) ≠ reflect.Kind.Ptr →
        Except.map (Match onNothing onJust) (head (x :: rest) >>= Map f)
          = Except.ok (onJust (f x)))
    ∧ Except.map (Match onNothing onJust) (head ([] : List A) >>= Map f)
        = Except.ok (onNothing ()) := by
  refine ⟨rfl, rfl, fun hx => ?_, fun hx hfx => ?_, rfl⟩
  · rw [Just_of_kind_ne_ptr x hx]
    rfl
  · have h1 : head (x :: rest) = Except.ok ⟨some x⟩ := Just_of_kind_ne_ptr x hx
    have h2 : (head (x :: rest) >>= Map f) = Just (f x) := by
      rw [h1]
      rfl
    rw [h2, Just_of_kind_ne_ptr (f x) hfx]
    rfl

/-- Witness of `map_just_nothing`: the list `[5, 7]` of `int`s and `f = (· * 2)`,
matched to a string-like tag. -/
theorem map_just_nothing_witness :
    reflect.kindOf (5 : Int) ≠ reflect.Kind.Ptr
    ∧ reflect.kindOf ((5 : Int) * 2) ≠ reflect.Kind.Ptr
    ∧ (Just (5 : Int) >>= Map (fun n : Int => n * 2)) = Just ((5 : Int) * 2)
    ∧ Except.map (Match (fun _ => (0 : Int)) (fun y : Int => y + 1))
        (head [(5 : Int), 7] >>= Map (fun n : Int => n * 2))
      = Except.ok ((5 : Int) * 2 + 1) :=
  ⟨by decide, by decide,
    (map_just_nothing (fun n : Int => n * 2) (5 : Int) [7] (fun _ => (0 : Int))
      (fun y : Int => y + 1)).2.2.1 (by decide),
    (map_just_nothing (fun n : Int => n * 2) (5 : Int) [7] (fun _ => (0 : Int))
      (fun y : Int => y + 1)).2.2.2.1 (by decide) (by decide)⟩

/-- C7 (counterexample): for the one-element list of `any` holding a pointer to the
`int` 0, `Fmap(f)(head(xs))` is `f` of the pointee 0, not `f(xs[0])`: with `f`
present on pointers only, it is `Nothing` while `f(xs[0])` is present. -/
theorem fmap_head_pointer_counterexample :
    Except.map (Fmap presentIfPointer) (head [GoAny.ptr GoType.int 1 (GoAny.int 0)])
      = Except.ok Nothing
    ∧ presentIfPointer (GoAny.ptr GoType.int 1 (GoAny.int 0)) = ⟨some true⟩
    ∧ Except.map (Fmap presentIfPointer) (head [GoAny.ptr GoType.int 1 (GoAny.int 0)])
      ≠ Except.ok (presentIfPointer (GoAny.ptr GoType.int 1 (GoAny.int 0))) := by
  refine ⟨rfl, rfl, ?_⟩
  decide

/-- C7 (amended): `Fmap(f)` applied to a present value holding `x` returns exactly
`f(x)`, with no additional wrapping, so a `Nothing` produced by `f` is propagated; applied to
`Nothing` it returns `Nothing` regardless of `f`; for `x` not of pointer kind
`Fmap(f)(Just(x)) = f(x)`, and for a list with such a head `x`,
`Fmap(f)(head(xs)) = f(x)`; for the empty list it is `Nothing`. -/
theorem fmap_just_nothing {A B : Type} [GoValue A] (f : A → Maybe B) (x : A)
    (rest : List A) :
    Fmap f ⟨some x⟩ = f x
    ∧ (f x = Nothing → Fmap f ⟨some x⟩ = Nothing)
    ∧ Fmap f (Nothing : Maybe A) = Nothing
    ∧ (reflect.kindOf x ≠ reflect.Kind.Ptr →
        Except.map (Fmap f) (Just x) = Except.ok (f x))
    ∧ (reflect.kindOf x ≠ reflect.Kind.Ptr →
        Except.map (Fmap f) (head (x :: rest)) = Except.ok (f x))
    ∧ Except.map (Fmap f) (head ([] : List A)) = Except.ok Nothing := by
  refine ⟨rfl, fun h => ?_, rfl, fun hx => ?_, fun hx => ?_, rfl⟩
  · rw [← h]
    rfl
  · rw [Just_of_kind_ne_ptr x hx]
    rfl
  · have h1 : head (x :: rest) = Except.ok ⟨some x⟩ := Just_of_kind_ne_ptr x hx
    rw [h1]
    rfl

/-- Witness of `fmap_just_nothing`: the lists `[0, 10]` and `[5, 10]` of the test,
with a callback that is `Nothing` on 0. -/
theorem fmap_just_nothing_witness :
    reflect.kindOf (0 : Int) ≠ reflect.Kind.Ptr
    ∧ positiveOnly 0 = Nothing
    ∧ Fmap positiveOnly ⟨some 0⟩ = Nothing
    ∧ Except.map (Fmap positiveOnly) (Just (0 : Int)) = Except.ok (positiveOnly 0)
    ∧ Except.map (Fmap positiveOnly) (head [(0 : Int), 10])
        = Except.ok (positiveOnly 0) :=
  ⟨by decide, by decide,
    (fmap_just_nothing positiveOnly (0 : Int) [10]).2.1 (by decide),
    (fmap_just_nothing positiveOnly (0 : Int) [10]).2.2.2.1 (by decide),
    (fmap_just_nothing positiveOnly (0 : Int) [10]).2.2.2.2.1 (by decide)⟩

/-- C8 (counterexample): both functor laws fail on pointers held in an `any`.
Identity: `Just` of a pointer to a pointer to 0 is a present value holding the inner
pointer, and `Map(identity)` of it holds the `int` 0 instead. Composition: with `f`
returning a pointer and `g` testing for a pointer, `Map(g)(Map(f)(Just(5)))` holds
`false`, while `Map(g ∘ f)(Just(5))` holds `true`. -/
theorem functor_laws_pointer_counterexample :
    Just (GoAny.ptr (GoType.pointer GoType.int) 2 (GoAny.ptr GoType.int 1 (GoAny.int 0)))
      = Except.ok ⟨some (GoAny.ptr GoType.int 1 (GoAny.int 0))⟩
    ∧ Map (fun x : GoAny => x) ⟨some (GoAny.ptr GoType.int 1 (GoAny.int 0))⟩
      = Except.ok ⟨some (GoAny.int 0)⟩
    ∧ Except.map (Match (fun _ => GoAny.nil) (fun x => x))
        (Map (fun x : GoAny => x) ⟨some (GoAny.ptr GoType.int 1 (GoAny.int 0))⟩)
      ≠ Except.ok (Match (fun _ => GoAny.nil) (fun x => x)
          (⟨some (GoAny.ptr GoType.int 1 (GoAny.int 0))⟩ : Maybe GoAny))
    ∧ Just (5 : Int) = Except.ok ⟨some 5⟩
    ∧ (Map addressOf ⟨some 5⟩ >>= Map holdsPointer) = Except.ok ⟨some false⟩
    ∧ Map (fun n => holdsPointer (addressOf n)) ⟨some 5⟩ = Except.ok ⟨some true⟩
    ∧ (Map addressOf ⟨some 5⟩ >>= Map holdsPointer)
      ≠ Map (fun n => holdsPointer (addressOf n)) ⟨some 5⟩ := by
  refine ⟨rfl, rfl, ?_, rfl, rfl, rfl, ?_⟩
  · decide
  · decide

/-- C8 (amended): for every `Maybe` `m` that is `Nothing` or holds a value not of
pointer kind, `Map(identity)(m)` is `m` itself; and for all `f`, `g` and every `m`
that is `Nothing` or holds an `x` with `f(x)` not of pointer kind,
`Map(g)(Map(f)(m))` is `Map(g ∘ f)(m)` (the same present value, the same `Nothing`,
or the same panic of `Just` on `g(f(x))`). Equal values give the same result under
every `Match`. -/
theorem functor_laws {A B C : Type} [GoValue A] [GoValue B] [GoValue C] (m : Maybe A)
    (f : A → B) (g : B → C) :
    ((∀ x, m.val = some x → reflect.kindOf x ≠ reflect.Kind.Ptr) →
      Map (fun x : A => x) m = Except.ok m)
    ∧ ((∀ x, m.val = some x → reflect.kindOf (f x) ≠ reflect.Kind.Ptr) →
      (Map f m >>= Map g) = Map (fun x => g (f x)) m) := by
  obtain ⟨val⟩ := m
  cases val with
  | none => exact ⟨fun _ => rfl, fun _ => rfl⟩
  | some x =>
    refine ⟨fun h => ?_, fun h => ?_⟩
    · exact Just_of_kind_ne_ptr x (h x rfl)
    · have h1 : Map f ⟨some x⟩ = Except.ok ⟨some (f x)⟩ :=
        Just_of_kind_ne_ptr (f x) (h x rfl)
      rw [h1]
      rfl

/-- Witness of `functor_laws`: the present value holding the `int` 5, `f` doubling
and `g` adding one. -/
theorem functor_laws_witness :
    (∀ x : Int, (⟨some 5⟩ : Maybe Int).val = some x → reflect.kindOf x ≠ reflect.Kind.Ptr)
    ∧ (∀ x : Int, (⟨some 5⟩ : Maybe Int).val = some x →
        reflect.kindOf ((fun n : Int => n * 2) x) ≠ reflect.Kind.Ptr)
    ∧ Map (fun x : Int => x) ⟨some 5⟩ = Except.ok ⟨some 5⟩
    ∧ (Map (fun n : Int => n * 2) ⟨some 5⟩ >>= Map (fun n : Int => n + 1))
        = Map (fun x : Int => (fun n : Int => n + 1) ((fun n : Int => n * 2) x)) ⟨some 5⟩ :=
  ⟨fun x _ => kindOf_int_ne_ptr x, fun x _ => kindOf_int_ne_ptr (x * 2),
    (functor_laws (⟨some 5⟩ : Maybe Int) (fun n : Int => n * 2)
      (fun n : Int => n + 1)).1 (fun x _ => kindOf_int_ne_ptr x),
    (functor_laws (⟨some 5⟩ : Maybe Int) (fun n : Int => n * 2)
      (fun n : Int => n + 1)).2 (fun x _ => kindOf_int_ne_ptr (x * 2))⟩

end maybe

/-! ## Theorems: package `result` -/

namespace result

/-- `Err(e)` with a non-nil `e` is in the error state. -/
theorem IsErr_Err {A : Type} [GoValue A] (e : GoError) (he : e ≠ none) :
    IsErr (Err e : Result A) = true := by
  simp [IsErr, Err, he]

/-- `Map(f)` leaves an error result as it is. -/
theorem Map_Err {A B : Type} [GoValue A] [GoValue B] (f : A → B) (e : GoError)
    (he : e ≠ none) : Map f (Err e) = Err e := by
  unfold Map
  rw [if_pos (IsErr_Err e he)]
  rfl

/-- `Fmap(f)` leaves an error result as it is. -/
theorem Fmap_Err {A B : Type} [GoValue A] [GoValue B] (f : A → Result B) (e : GoError)
    (he : e ≠ none) : Fmap f (Err e) = Err e := by
  unfold Fmap
  rw [if_pos (IsErr_Err e he)]
  rfl

/-- An error result passes unchanged through every chain of `Map`/`Fmap` steps. -/
theorem Chain_run_Err {A C : Type} {iA : GoValue A} {iC : GoValue C}
    (c : Chain A C iA iC) (e : GoError) (he : e ≠ none) :
    c.run (@Err A iA e) = @Err C iC e := by
  induction c with
  | done => rfl
  | map f rest ih =>
    show rest.run (Map f (Err e)) = Err e
    rw [Map_Err f e he]
    exact ih
  | fmap f rest ih =>
    show rest.run (Fmap f (Err e)) = Err e
    rw [Fmap_Err f e he]
    exact ih

/-- C9: `Map(f)` applied to `Ok(v)` yields `Ok(f(v))`; applied to an error result
`Err(e)` (a non-nil `e`) it yields `Err(e)` with the same error, whatever `f` is;
`Ok("hello")` mapped through upper-casing is `Ok("HELLO")` and the error result of
"boom" mapped through upper-casing is unchanged. -/
theorem map_ok_err {A B : Type} [GoValue A] [GoValue B] (f f2 : A → B) (v : A)
    (e : GoError) (he : e ≠ none) :
    Map f (Ok v) = Ok (f v)
    ∧ Map f (Err e) = Err e
    ∧ (Map f (Err e : Result A)).err = e
    ∧ Map f (Err e) = Map f2 (Err e)
    ∧ Map ToUpper (Ok "hello") = Ok "HELLO"
    ∧ Map ToUpper (Err (some "boom")) = Err (some "boom") := by
  refine ⟨rfl, Map_Err f e he, ?_, ?_, rfl, rfl⟩
  · rw [Map_Err f e he]
    rfl
  · rw [Map_Err f e he, Map_Err f2 e he]

/-- Witness of `map_ok_err`: the error "boom" and two functions on `int`s. -/
theorem map_ok_err_witness :
    (some "boom" : GoError) ≠ none
    ∧ Map (fun n : Int => n + 1) (Ok 1) = Ok 2
    ∧ Map (fun n : Int => n + 1) (Err (some "boom")) = Err (some "boom")
    ∧ Map (fun n : Int => n + 1) (Err (some "boom"))
        = Map (fun n : Int => n * 2) (Err (some "boom")) :=
  ⟨by decide,
    (map_ok_err (fun n : Int => n + 1) (fun n : Int => n * 2) 1 (some "boom")
      (by decide)).1,
    (map_ok_err (fun n : Int => n + 1) (fun n : Int => n * 2) 1 (some "boom")
      (by decide)).2.1,
    (map_ok_err (fun n : Int => n + 1) (fun n : Int => n * 2) 1 (some "boom")
      (by decide)).2.2.2.1⟩

/-- C10 (counterexample): the nil error is a value of type `error`, and `Err(nil)` is
not in the error state, so `Fmap(f)` applied to `Err[int](nil)` runs `f` on the zero
value: with `f = n -> Ok(n + 1)` the output is `Ok(1)`, not `Err(nil)`, and it depends
on `f`. -/
theorem fmap_err_nil_counterexample :
    Fmap (fun n : Int => Ok (n + 1)) (Err none : Result Int) = Ok 1
    ∧ Fmap (fun n : Int => Ok (n + 1)) (Err none : Result Int) ≠ Err none
    ∧ Fmap (fun n : Int => Ok (n + 1)) (Err none : Result Int)
        ≠ Fmap (fun n : Int => Ok (n + 2)) (Err none : Result Int) := by
  refine ⟨rfl, ?_, ?_⟩
  · decide
  · decide

/-- C10 (amended): `Fmap(f)` applied to `Ok(v)` returns exactly `f(v)`, so if
`f(v) = Err(e2)` the output is `Err(e2)`; applied to `Err(e)` with a non-nil error `e`
it returns `Err(e)` whatever `f` is, and so does every chain of `Map`/`Fmap` steps run
on `Err(e)`; and if `f(v) = Err(e2)` with a non-nil `e2`, the output of every chain of
further steps after `Fmap(f)(Ok(v))` is `Err(e2)`. -/
theorem fmap_first_error {A B C : Type} [iA : GoValue A] [iB : GoValue B]
    [iC : GoValue C] (f f2 : A → Result B) (v : A) (e e2 : GoError)
    (c : Chain A C iA iC) (c2 : Chain B C iB iC) :
    Fmap f (Ok v) = f v
    ∧ (f v = Err e2 → Fmap f (Ok v) = Err e2)
    ∧ (e ≠ none →
        Fmap f (Err e) = Err e
        ∧ Fmap f (Err e) = Fmap f2 (Err e)
        ∧ c.run (Err e) = Err e)
    ∧ (e2 ≠ none → f v = Err e2 →
        (Chain.fmap f c2 : Chain A C iA iC).run (Ok v) = Err e2) := by
  refine ⟨rfl, fun hf => ?_, fun he => ⟨Fmap_Err f e he, ?_, Chain_run_Err c e he⟩,
    fun he2 hf => ?_⟩
  · rw [← hf]
    rfl
  · rw [Fmap_Err f e he, Fmap_Err f2 e he]
  · show c2.run (Fmap f (Ok v)) = Err e2
    have h : Fmap f (Ok v) = Err e2 := by
      rw [← hf]
      rfl
    rw [h]
    exact Chain_run_Err c2 e2 he2

/-- Witness of `fmap_first_error`: the error "boom", the callback `nonZero` at 0 and
the two-step chain `incrementThenNonZero` on `int`s. -/
theorem fmap_first_error_witness :
    (some "boom" : GoError) ≠ none
    ∧ (some "division by zero" : GoError) ≠ none
    ∧ nonZero 0 = Err (some "division by zero")
    ∧ Fmap nonZero (Ok 0) = Err (some "division by zero")
    ∧ Fmap nonZero (Err (some "boom")) = Err (some "boom")
    ∧ incrementThenNonZero.run (Err (some "boom")) = Err (some "boom")
    ∧ (Chain.fmap nonZero incrementThenNonZero
        : Chain Int Int inferInstance inferInstance).run (Ok 0)
        = Err (some "division by zero") :=
  ⟨by decide, by decide, by decide,
    (fmap_first_error nonZero nonZero 0 (some "boom") (some "division by zero")
      incrementThenNonZero incrementThenNonZero).2.1 (by decide),
    ((fmap_first_error nonZero nonZero 0 (some "boom") (some "division by zero")
      incrementThenNonZero incrementThenNonZero).2.2.1 (by decide)).1,
    ((fmap_first_error nonZero nonZero 0 (some "boom") (some "division by zero")
      incrementThenNonZero incrementThenNonZero).2.2.1 (by decide)).2.2,
    (fmap_first_error nonZero nonZero 0 (some "boom") (some "division by zero")
      incrementThenNonZero incrementThenNonZero).2.2.2 (by decide) (by decide)⟩

/-- C11: `From(v)` and `From(v, nil)` equal `Ok(v)`, and for every non-nil error `e`,
`From(v, e)` equals `Err(e)` whatever `v` is; further variadic arguments do not
matter. `From("", Failure)` is `Err(Failure)` and `From("Success", nil)` is
`Ok("Success")`. -/
theorem from_truth_table {A : Type} [GoValue A] (v v2 : A) (e : GoError)
    (rest : List GoError) :
    From v [] = Ok v
    ∧ From v [none] = Ok v
    ∧ From v (none :: rest) = Ok v
    ∧ (e ≠ none →
        From v [e] = Err e
        ∧ From v (e :: rest) = Err e
        ∧ From v [e] = From v2 [e])
    ∧ From "" [some "Failure"] = Err (some "Failure")
    ∧ From "Success" [none] = Ok "Success" := by
  refine ⟨rfl, rfl, ?_, fun he => ⟨?_, ?_, ?_⟩, rfl, rfl⟩
  · simp [From]
  · simp [From, he]
  · simp [From, he]
  · simp [From, he]

/-- Witness of `from_truth_table`: the error "Failure" with two different values. -/
theorem from_truth_table_witness :
    (some "Failure" : GoError) ≠ none
    ∧ From (1 : Int) [some "Failure"] = Err (some "Failure")
    ∧ From (1 : Int) [some "Failure", none] = Err (some "Failure")
    ∧ From (1 : Int) [some "Failure"] = From (2 : Int) [some "Failure"] :=
  ⟨by decide,
    (from_truth_table (1 : Int) 2 (some "Failure") [none]).2.2.2.1 (by decide)⟩

/-- C12 (counterexample): the nil error is a value of type `error`, and `Err(nil)` is
not in the error state: `Match` takes the `Ok` callback (on the zero value) and
`IsErr(Err(nil))` is false. -/
theorem match_err_nil_counterexample :
    Match (fun _ => false) (fun _ => true) (Err none : Result Int) = true
    ∧ Match (fun _ => false) (fun _ => true) (Err none : Result Int)
        ≠ (fun _ => false) (none : GoError)
    ∧ Match (fun _ => (1 : Int)) (fun v => v) (Err none : Result Int) = 0
    ∧ IsErr (Err none : Result Int) = false := by
  refine ⟨rfl, ?_, rfl, rfl⟩
  decide

/-- C12 (amended): `Match(onErr, onOk)(Ok(v)) = onOk(v)` and `IsOk(Ok(v))` holds for
every value `v`; for every non-nil error `e`, `Match(onErr, onOk)(Err(e)) = onErr(e)`
and `IsErr(Err(e))` holds. -/
theorem result_match_round_trip {A B : Type} [GoValue A] (onErr : GoError → B)
    (onOk : A → B) (v : A) (e : GoError) :
    Match onErr onOk (Ok v) = onOk v
    ∧ IsOk (Ok v) = true
    ∧ IsErr (Ok v) = false
    ∧ (e ≠ none →
        Match onErr onOk (Err e : Result A) = onErr e
        ∧ IsErr (Err e : Result A) = true
        ∧ IsOk (Err e : Result A) = false) := by
  refine ⟨rfl, rfl, rfl, fun he => ⟨?_, IsErr_Err e he, ?_⟩⟩
  · unfold Match
    rw [if_pos (IsErr_Err e he)]
    rfl
  · simp [IsOk, Err, he]

/-- Witness of `result_match_round_trip`: the error "boom". -/
theorem result_match_round_trip_witness :
    (some "boom" : GoError) ≠ none
    ∧ Match (fun e : GoError => e.isSome) (fun _ : Int => false)
        (Err (some "boom") : Result Int) = (some "boom" : GoError).isSome
    ∧ IsErr (Err (some "boom") : Result Int) = true
    ∧ IsOk (Err (some "boom") : Result Int) = false :=
  ⟨by decide,
    (result_match_round_trip (fun e : GoError => e.isSome) (fun _ : Int => false) 1
      (some "boom")).2.2.2 (by decide)⟩

/-- C13: for the interface type `A = any`, `Unwrap` of an error result raises: the
value field is the nil interface, `reflect.TypeOf` of it is nil and
`reflect.Zero(nil)` panics. On `Ok(v)` `Unwrap` returns `v` for every type; for an
error result of type `int`, `string` or `bool` (whatever its value field), it returns
the zero value; and `Unwrap(head(xs))` on strings is `xs[0]`, or the empty string for
the empty list. -/
theorem unwrap_interface_panics :
    Unwrap (Err (some "boom") : Result GoAny)
      = Except.error (Panic.runtime "reflect: Zero(nil)")
    ∧ (∀ (A : Type) (inst : GoValue A) (v : A), @Unwrap A inst (Ok v) = Except.ok v)
    ∧ (∀ (msg : String) (val : Int), Unwrap ⟨some msg, val⟩ = Except.ok 0)
    ∧ (∀ (msg : String) (val : String), Unwrap ⟨some msg, val⟩ = Except.ok "")
    ∧ (∀ (msg : String) (val : Bool), Unwrap ⟨some msg, val⟩ = Except.ok false)
    ∧ (∀ (x : String) (rest : List String), Unwrap (head (x :: rest)) = Except.ok x)
    ∧ Unwrap (head ([] : List String)) = Except.ok "" :=
  ⟨rfl, fun _ _ _ => rfl, fun _ _ => rfl, fun _ _ => rfl, fun _ _ => rfl,
    fun _ _ => rfl, rfl⟩

/-- C14: `Unsafe_Unwrap` returns `v` for `Ok(v)`; for a result in the error state it
panics with exactly the error the result carries (so `Unsafe_Unwrap(Err(e))` panics
with `e`); and it panics if and only if `IsErr(m)`. On `head` of the empty list it
panics with the error of `head`, on a non-empty list it returns the first
element. -/
theorem unsafe_unwrap_passthrough {A : Type} [GoValue A] (v : A) (m : Result A)
    (e : GoError) :
    Unsafe_Unwrap (Ok v) = Except.ok v
    ∧ (IsErr m = true → Unsafe_Unwrap m = Except.error (Panic.err m.err))
    ∧ (e ≠ none → Unsafe_Unwrap (Err e : Result A) = Except.error (Panic.err e))
    ∧ ((∃ p, Unsafe_Unwrap m = Except.error p) ↔ IsErr m = true)
    ∧ (IsErr m = false → Unsafe_Unwrap m = Except.ok m.val)
    ∧ Unsafe_Unwrap (head ([] : List String))
        = Except.error (Panic.err (some "cannot get head from an empty array"))
    ∧ Unsafe_Unwrap (head ["Success"]) = Except.ok "Success" := by
  refine ⟨rfl, fun h => ?_, fun he => ?_, ?_, fun h => ?_, rfl, rfl⟩
  · unfold Unsafe_Unwrap
    rw [if_pos h]
  · unfold Unsafe_Unwrap
    rw [if_pos (IsErr_Err e he)]
    rfl
  · unfold Unsafe_Unwrap
    cases h : IsErr m with
    | true => simp
    | false => simp
  · unfold Unsafe_Unwrap
    rw [h]
    rfl

/-- Witness of `unsafe_unwrap_passthrough`: the error result of "boom" and the
success result of 1. -/
theorem unsafe_unwrap_passthrough_witness :
    IsErr (Err (some "boom") : Result Int) = true
    ∧ (some "boom" : GoError) ≠ none
    ∧ IsErr (Ok 1 : Result Int) = false
    ∧ Unsafe_Unwrap (Err (some "boom") : Result Int)
        = Except.error (Panic.err (Err (some "boom") : Result Int).err)
    ∧ Unsafe_Unwrap (Err (some "boom") : Result Int)
        = Except.error (Panic.err (some "boom"))
    ∧ Unsafe_Unwrap (Ok 1 : Result Int) = Except.ok (Ok 1 : Result Int).val :=
  ⟨by decide, by decide, by decide,
    (unsafe_unwrap_passthrough (1 : Int) (Err (some "boom")) (some "boom")).2.1
      (by decide),
    (unsafe_unwrap_passthrough (1 : Int) (Err (some "boom")) (some "boom")).2.2.1
      (by decide),
    (unsafe_unwrap_passthrough (1 : Int) (Ok 1) (some "boom")).2.2.2.2.1 (by decide)⟩

/-- C15: for every Result `m`, the zero value of the type included, `IsOk(m)` is the
negation of `IsErr(m)`; when `IsErr(m)` holds `Match` calls the error callback on the
error, `Unsafe_Unwrap` panics with it and `Unwrap` evaluates
`reflect.Zero(reflect.TypeOf(m.val)).Interface().(A)`; when it does not hold `Match`
calls the `Ok` callback on the value and both unwraps return the value. -/
theorem result_two_states {A B : Type} [GoValue A] (m : Result A)
    (onErr : GoError → B) (onOk : A → B) :
    IsOk m = !IsErr m
    ∧ (IsErr m = true →
        Match onErr onOk m = onErr m.err
        ∧ Unsafe_Unwrap m = Except.error (Panic.err m.err)
        ∧ Unwrap m =
            (match reflect.Zero (reflect.TypeOf (GoValue.toAny m.val)) with
              | Except.error p => Except.error p
              | Except.ok z =>
                match (GoValue.assert z.Interface : Option A) with
                | some x => Except.ok x
                | none => Except.error (Panic.runtime "interface conversion")))
    ∧ (IsErr m = false →
        Match onErr onOk m = onOk m.val
        ∧ Unsafe_Unwrap m = Except.ok m.val
        ∧ Unwrap m = Except.ok m.val)
    ∧ IsOk (⟨none, GoValue.zero⟩ : Result A) = true
    ∧ IsErr (⟨none, GoValue.zero⟩ : Result A) = false := by
  refine ⟨?_, fun h => ⟨?_, ?_, ?_⟩, fun h => ⟨?_, ?_, ?_⟩, rfl, rfl⟩
  · cases h : m.err <;> simp [IsOk, IsErr, h]
  · unfold Match
    rw [if_pos h]
  · unfold Unsafe_Unwrap
    rw [if_pos h]
  · unfold Unwrap
    rw [if_pos h]
  · unfold Match
    rw [h]
    rfl
  · unfold Unsafe_Unwrap
    rw [h]
    rfl
  · unfold Unwrap
    rw [h]
    rfl

/-- Witness of `result_two_states`: the error result of "boom" and the success
result of 1, on `int`s. -/
theorem result_two_states_witness :
    IsErr (Err (some "boom") : Result Int) = true
    ∧ IsErr (Ok 1 : Result Int) = false
    ∧ Match (fun e : GoError => e.isSome) (fun _ : Int => false)
        (Err (some "boom") : Result Int)
        = (fun e : GoError => e.isSome) (Err (some "boom") : Result Int).err
    ∧ Match (fun e : GoError => e.isSome) (fun _ : Int => false) (Ok 1 : Result Int)
        = (fun _ : Int => false) (Ok 1 : Result Int).val
    ∧ Unwrap (Ok 1 : Result Int) = Except.ok (Ok 1 : Result Int).val :=
  ⟨by decide, by decide,
    ((result_two_states (Err (some "boom") : Result Int) (fun e : GoError => e.isSome)
      (fun _ : Int => false)).2.1 (by decide)).1,
    ((result_two_states (Ok 1 : Result Int) (fun e : GoError => e.isSome)
      (fun _ : Int => false)).2.2.1 (by decide)).1,
    ((result_two_states (Ok 1 : Result Int) (fun e : GoError => e.isSome)
      (fun _ : Int => false)).2.2.1 (by decide)).2.2⟩

/-- A Result in the error state carries a non-nil error. -/
theorem err_ne_none_of_IsErr {A : Type} (m : Result A) (h : IsErr m = true) :
    m.err ≠ none := by
  simpa [IsErr] using h

/-- A Result built with the package holds the zero value whenever it is in the error
state. -/
theorem Built.val_zero {A : Type} {iA : GoValue A} {m : Result A} (hm : Built A iA m) :
    IsErr m = true → m.val = iA.zero := by
  induction hm with
  | ok v =>
    intro h
    simp [IsErr, Ok] at h
  | err e =>
    intro _
    rfl
  | ofFrom v errs =>
    intro h
    unfold From at h ⊢
    split
    · rename_i hc
      rw [if_pos hc] at h
      simp [IsErr, Ok] at h
    · rfl
  | map f m _ _ =>
    intro h
    unfold Map at h ⊢
    cases hc : IsErr m with
    | true => rfl
    | false =>
      rw [hc] at h
      simp [IsErr, Ok] at h
  | fmap f m _ hf _ ihf =>
    intro h
    unfold Fmap at h ⊢
    cases hc : IsErr m with
    | true => rfl
    | false =>
      rw [hc] at h
      exact ihf m.val h

/-- C16: for every Result `m` built from `Ok`, `Err`, `From`, `Map` and `Fmap`,
`Map(identity)(m)` equals `m`; and for all `f: A -> B`, `g: B -> C`,
`Map(g)(Map(f)(m))` equals `Map(g ∘ f)(m)` (for every Result `m`). -/
theorem result_functor_laws {A B C : Type} [iA : GoValue A] [iB : GoValue B]
    [iC : GoValue C] (m : Result A) (f : A → B) (g : B → C) :
    (Built A iA m → Map (fun x : A => x) m = m)
    ∧ Map g (Map f m) = Map (fun x => g (f x)) m := by
  constructor
  · intro hm
    cases hc : IsErr m with
    | true =>
      have hz : m.val = iA.zero := hm.val_zero hc
      unfold Map
      rw [hc]
      obtain ⟨err, val⟩ := m
      simp only at hz
      subst hz
      rfl
    | false =>
      unfold Map
      rw [hc]
      have he : m.err = none := by simpa [IsErr] using hc
      obtain ⟨err, val⟩ := m
      simp only at he
      subst he
      rfl
  · cases hc : IsErr m with
    | true =>
      have h1 : Map f m = Err m.err := by
        unfold Map
        rw [hc]
        rfl
      have h2 : Map (fun x => g (f x)) m = Err m.err := by
        unfold Map
        rw [hc]
        rfl
      rw [h1, h2]
      exact Map_Err g m.err (err_ne_none_of_IsErr m hc)
    | false =>
      have h1 : Map f m = Ok (f m.val) := by
        unfold Map
        rw [hc]
        rfl
      have h2 : Map (fun x => g (f x)) m = Ok (g (f m.val)) := by
        unfold Map
        rw [hc]
        rfl
      rw [h1, h2]
      rfl

/-- Witness of `result_functor_laws`: the Result `Map(+1)(From(1, boom))`, built with
the package. -/
theorem result_functor_laws_witness :
    Built Int inferInstance (Map (fun n : Int => n + 1) (From (1 : Int) [some "boom"]))
    ∧ Map (fun x : Int => x) (Map (fun n : Int => n + 1) (From (1 : Int) [some "boom"]))
        = Map (fun n : Int => n + 1) (From (1 : Int) [some "boom"]) :=
  ⟨Built.map _ _ (Built.ofFrom 1 [some "boom"]),
    (result_functor_laws (Map (fun n : Int => n + 1) (From (1 : Int) [some "boom"]))
      (fun n : Int => n * 2) (fun n : Int => n + 3)).1
      (Built.map _ _ (Built.ofFrom 1 [some "boom"]))⟩

end result

/-! ## Theorems: package `state` -/

namespace state

/-- C17: `Put(n)` applied to any input state `s` returns `(Void{}, n)`; hence for
every seed `n`, function `g` and initial state `s0`,
`Exec(s0)(Fmap(λs. Put(g(s)))(Run(n))) = g(n)`; the counter of `TestPut` (built with
0 as the state given to `Exec`) maps -1, 0, 1 to 0, 1, 2. -/
theorem put_installs_state {S : Type} (n s s0 : S) (g : S → S) :
    Put n s = (Void.mk, n)
    ∧ Exec s0 (Fmap (fun x => Put (g x)) (Run n)) = g n
    ∧ putCounter (-1) = 0
    ∧ putCounter 0 = 1
    ∧ putCounter 1 = 2 := by
  refine ⟨rfl, rfl, ?_, ?_, ?_⟩ <;>
    norm_num [putCounter, pipe.Pipe3, pipe.Pipe2, pipe.Pipe, Run, Fmap, Put, Exec, addInt,
      pipe.wrapInt]

/-- C18: `Get` returns the current state as result and leaves it unchanged,
`Modify(g)` installs `g(currentState)` and yields `Void`; so for every seed `n`,
function `g` and initial state `s0`,
`Exec(s0)(Fmap(λ_. Modify(g))(Fmap(Get)(Run(n)))) = g(n)`; with seed 0 and
`g = s -> s+1` the final state is 1 (the counter of `TestModify` maps -1, 0, 1 to
0, 1, 2). -/
theorem get_modify_threads_state {S : Type} (n s s0 x : S) (g : S → S) :
    Get x s = (s, s)
    ∧ Modify g s = (Void.mk, g s)
    ∧ Exec s0 (Fmap (fun _ => Modify g) (Fmap Get (Run n))) = g n
    ∧ Exec (0 : Int) (Fmap (fun _ => Modify (fun t : Int => addInt t 1))
        (Fmap Get (Run (0 : Int)))) = 1
    ∧ modifyCounter (-1) = 0
    ∧ modifyCounter 0 = 1
    ∧ modifyCounter 1 = 2 := by
  refine ⟨rfl, rfl, rfl, ?_, ?_, ?_, ?_⟩ <;>
    norm_num [modifyCounter, pipe.Pipe4, pipe.Pipe3, pipe.Pipe2, pipe.Pipe, Run, Fmap,
      Get, Modify, Exec, addInt, pipe.wrapInt]

/-- C19: if `m(s) = (a, s')` then `Map(f)(m)(s) = (f(a), s')`; so
`Exec(s)(Map(f)(m)) = Exec(s)(m)` and `Eval(s)(Map(f)(m)) = f(Eval(s)(m))`; in
particular `Eval(s0)(Map(g)(Run(n))) = g(n)` for every `n` and `s0` (the `addTen` of
`TestMap` maps -1, 0, 1 to 9, 10, 11). -/
theorem map_transforms_result {S A B : Type} (m : State A S) (f : A → B) (s s2 : S)
    (a : A) (n s0 : S) (g : S → B) (h : m s = (a, s2)) :
    Map f m s = (f a, s2)
    ∧ Exec s (Map f m) = Exec s m
    ∧ Eval s (Map f m) = f (Eval s m)
    ∧ Eval s0 (Map g (Run n)) = g n
    ∧ addTen (-1) = 9
    ∧ addTen 0 = 10
    ∧ addTen 1 = 11 := by
  refine ⟨?_, rfl, rfl, rfl, ?_, ?_, ?_⟩
  · show (f (m s).1, (m s).2) = (f a, s2)
    rw [h]
  all_goals
    norm_num [addTen, add, pipe.Pipe3, pipe.Pipe2, pipe.Pipe, Run, Map, Eval, addInt,
      pipe.wrapInt]

/-- Witness of `map_transforms_result`: the computation `Run(5)` on `int`s at the
state 0, mapped through doubling. -/
theorem map_transforms_result_witness :
    (Run (5 : Int) : State Int Int) 0 = (5, 5)
    ∧ Map (fun k : Int => k * 2) (Run (5 : Int)) 0 = ((fun k : Int => k * 2) 5, 5)
    ∧ Exec (0 : Int) (Map (fun k : Int => k * 2) (Run (5 : Int))) = Exec 0 (Run (5 : Int))
    ∧ Eval (0 : Int) (Map (fun k : Int => k * 2) (Run (5 : Int)))
        = (fun k : Int => k * 2) (Eval 0 (Run (5 : Int))) :=
  ⟨rfl,
    (map_transforms_result (Run (5 : Int)) (fun k : Int => k * 2) 0 5 5 7 3
      (fun k : Int => k + 1) rfl).1,
    (map_transforms_result (Run (5 : Int)) (fun k : Int => k * 2) 0 5 5 7 3
      (fun k : Int => k + 1) rfl).2.1,
    (map_transforms_result (Run (5 : Int)) (fun k : Int => k * 2) 0 5 5 7 3
      (fun k : Int => k + 1) rfl).2.2.1⟩

/-- C20: `GetS(f)(s) = (f(s), s)`; hence for every seed `n`, function `g` and initial
state `s0`, `Eval(s0)(Fmap(λ_. GetS(g))(Run(n))) = g(n)` while `Exec` of the same
computation returns `n` (the `increment` of `TestGetS` maps -1, 0, 1 to 0, 1, 2). -/
theorem gets_reads_view {S A : Type} (f : S → A) (s n s0 : S) (g : S → A) :
    GetS f s = (f s, s)
    ∧ Eval s0 (Fmap (fun _ => GetS g) (Run n)) = g n
    ∧ Exec s0 (Fmap (fun _ => GetS g) (Run n)) = n
    ∧ getsIncrement (-1) = 0
    ∧ getsIncrement 0 = 1
    ∧ getsIncrement 1 = 2 := by
  refine ⟨rfl, rfl, rfl, ?_, ?_, ?_⟩ <;>
    norm_num [getsIncrement, pipe.Pipe3, pipe.Pipe2, pipe.Pipe, Run, Fmap, GetS, Eval,
      addInt, pipe.wrapInt]

end state

namespace state

/-- C21: if `m(s1) = (a, s2)` then `Fmap(f)(m)(s1) = f(a)(s2)`; and for every `m`,
`f`, `g` and state `s`,
`Fmap(g)(Fmap(f)(m))(s) = Fmap(λa. Fmap(g)(f(a)))(m)(s)`. -/
theorem fmap_sequences_and_associates {A B C S : Type} (m : State A S)
    (f : A → State B S) (g : B → State C S) (s1 s2 s : S) (a : A)
    (h : m s1 = (a, s2)) :
    Fmap f m s1 = f a s2
    ∧ Fmap g (Fmap f m) s = Fmap (fun x => Fmap g (f x)) m s := by
  constructor
  · show f (m s1).1 (m s1).2 = f a s2
    rw [h]
  · rfl

/-- Witness of `fmap_sequences_and_associates`: `Run(5)` on `int`s at the state 0,
bound to `Put` of the double and then to `Modify` by +1. -/
theorem fmap_sequences_and_associates_witness :
    (Run (5 : Int) : State Int Int) 0 = (5, 5)
    ∧ Fmap (fun x : Int => Put (x * 2)) (Run (5 : Int)) 0
        = (fun x : Int => Put (x * 2)) 5 5
    ∧ Fmap (fun _ : Void => Modify (fun t : Int => t + 1))
        (Fmap (fun x : Int => Put (x * 2)) (Run (5 : Int))) 3
        = Fmap (fun y => Fmap (fun _ : Void => Modify (fun t : Int => t + 1))
            ((fun x : Int => Put (x * 2)) y)) (Run (5 : Int)) 3 :=
  ⟨rfl,
    (fmap_sequences_and_associates (Run (5 : Int)) (fun x : Int => Put (x * 2))
      (fun _ : Void => Modify (fun t : Int => t + 1)) 0 5 3 5 rfl).1,
    (fmap_sequences_and_associates (Run (5 : Int)) (fun x : Int => Put (x * 2))
      (fun _ : Void => Modify (fun t : Int => t + 1)) 0 5 3 5 rfl).2⟩

end state

namespace maybe

/-- C22: at `p = new(any)`, a non-nil pointer of type `*any` whose pointee is the nil
interface, supplied as a value of type `any` with the flag `true`, `From` is not
present: `is_nil` is false, `Just` takes the pointer branch, `rv.Elem().Interface()`
is the nil interface and the assertion `.(A)` on it panics. The sibling paths return a
present value: `Just` of the nil interface itself, and `From` of a `*any` whose pointee
holds 7. The rows of `TestFrom` evaluate as the claim says: a pointer to 0 matched
with the identity callback gives 0, and a nil pointer with the flag `true` yields
`Nothing`. -/
theorem from_pointer_to_nil_interface_panics :
    is_nil (GoAny.ptr GoType.iface 1 GoAny.nil) = false
    ∧ From (GoAny.ptr GoType.iface 1 GoAny.nil) [true] = Except.error assertPanic
    ∧ (¬ ∃ x : GoAny,
        From (GoAny.ptr GoType.iface 1 GoAny.nil) [true] = Except.ok ⟨some x⟩)
    ∧ Just GoAny.nil = Except.ok ⟨some GoAny.nil⟩
    ∧ From (GoAny.ptr GoType.iface 1 (GoAny.int 7)) [true] = Except.ok ⟨some (GoAny.int 7)⟩
    ∧ From (GoAny.ptr GoType.int 1 (GoAny.int 0)) [true] = Except.ok ⟨some (GoAny.int 0)⟩
    ∧ Except.map (Match (fun _ => GoAny.int 0) (fun v => v))
        (From (GoAny.ptr GoType.int 1 (GoAny.int 0)) [true]) = Except.ok (GoAny.int 0)
    ∧ (∀ elem : GoType, From (GoAny.nilptr elem) [true] = Except.ok Nothing)
    ∧ Except.map (Match (fun _ => GoAny.int 0) (fun v => v))
        (From (GoAny.nilptr GoType.int) [true]) = Except.ok (GoAny.int 0)
    ∧ Except.map (Match (fun _ => GoAny.int 0) (fun v => v))
        (From (GoAny.int 1) [true]) = Except.ok (GoAny.int 1)
    ∧ Except.map (Match (fun _ => GoAny.int 0) (fun v => v))
        (From (GoAny.int 1) [false]) = Except.ok (GoAny.int 0)
    ∧ Except.map (Match (fun _ => GoAny.int 0) (fun v => v))
        (From GoAny.nil [false]) = Except.ok (GoAny.int 0) := by
  refine ⟨rfl, rfl, ?_, rfl, rfl, rfl, rfl, fun _ => rfl, rfl, rfl, rfl, rfl⟩
  rintro ⟨x, hx⟩
  have h : (Except.error assertPanic : Except Panic (Maybe GoAny)) = Except.ok ⟨some x⟩ := hx
  cases h

/-- Where the dereference works: for every non-nil pointer held in an `any` whose
pointee is not the nil interface, `From(p, true)` is the present value holding the
pointee, and `Match` hands the `Just` callback the pointee. -/
theorem From_any_ptr {B : Type} (elem : GoType) (addr : Nat) (target : GoAny)
    (onNothing : Unit → B) (onJust : GoAny → B) (ht : target ≠ GoAny.nil) :
    From (GoAny.ptr elem addr target) [true] = Except.ok ⟨some target⟩
    ∧ Except.map (Match onNothing onJust) (From (GoAny.ptr elem addr target) [true])
        = Except.ok (onJust target) := by
  have hFrom : From (GoAny.ptr elem addr target) [true] = Except.ok ⟨some target⟩ :=
    Just_any_ptr elem addr target ht
  refine ⟨hFrom, ?_⟩
  rw [hFrom]
  rfl

end maybe

namespace result

/-- `Err(e)` holds the zero value, so it never holds a stale value. -/
theorem NoStaleValue_Err {A : Type} [GoValue A] (e : GoError) :
    NoStaleValue (Err e : Result A) :=
  fun _ => rfl

/-- `Ok(v)` has a nil error, so it never holds a stale value. -/
theorem NoStaleValue_Ok {A : Type} [GoValue A] (v : A) : NoStaleValue (Ok v) :=
  fun h => absurd rfl h

/-- The callback `nonZero` returns Results without a stale value. -/
theorem NoStaleValue_nonZero (a : Int) : NoStaleValue (nonZero a) := by
  unfold nonZero
  split
  · exact NoStaleValue_Err _
  · exact NoStaleValue_Ok _

/-- C23: the predicate "if the error field is non-nil then the value field is the
zero value of `A`" holds for every result of `Ok`, `Err` and `From`; it holds for
every result of `Map(f)` (so `Map(f)` preserves it), and for every result of
`Fmap(f)` whenever `f` returns Results satisfying it (so `Fmap(f)` preserves it);
consequently `Fmap(Ok)(m) = m` for every Result `m` satisfying it. -/
theorem no_stale_value {A B : Type} [GoValue A] [GoValue B] (v : A) (e : GoError)
    (errs : List GoError) (f : A → B) (k : A → Result B) (m : Result A) :
    NoStaleValue (Ok v)
    ∧ NoStaleValue (Err e : Result A)
    ∧ NoStaleValue (From v errs)
    ∧ (NoStaleValue m → NoStaleValue (Map f m))
    ∧ (NoStaleValue m → (∀ a, NoStaleValue (k a)) → NoStaleValue (Fmap k m))
    ∧ (NoStaleValue m → Fmap Ok m = m) := by
  refine ⟨NoStaleValue_Ok v, NoStaleValue_Err e, ?_, fun _ => ?_, fun _ hk => ?_,
    fun hm => ?_⟩
  · unfold From
    split
    · exact NoStaleValue_Ok v
    · exact NoStaleValue_Err _
  · unfold Map
    split
    · exact NoStaleValue_Err _
    · exact NoStaleValue_Ok _
  · unfold Fmap
    split
    · exact NoStaleValue_Err _
    · exact hk m.val
  · obtain ⟨err, val⟩ := m
    cases err with
    | none => rfl
    | some msg =>
      have hz : val = GoValue.zero := hm (by simp)
      subst hz
      rfl

/-- Witness of `no_stale_value`: the error result of "boom" on `int`s and the
callback `nonZero`. -/
theorem no_stale_value_witness :
    NoStaleValue (Err (some "boom") : Result Int)
    ∧ (∀ a, NoStaleValue (nonZero a))
    ∧ NoStaleValue (Map (fun n : Int => n + 1) (Err (some "boom") : Result Int))
    ∧ NoStaleValue (Fmap nonZero (Err (some "boom") : Result Int))
    ∧ Fmap Ok (Err (some "boom") : Result Int) = Err (some "boom") :=
  ⟨NoStaleValue_Err _,
    NoStaleValue_nonZero,
    (no_stale_value (1 : Int) (some "boom") [] (fun n : Int => n + 1) nonZero
      (Err (some "boom"))).2.2.2.1 (NoStaleValue_Err _),
    (no_stale_value (1 : Int) (some "boom") [] (fun n : Int => n + 1) nonZero
      (Err (some "boom"))).2.2.2.2.1 (NoStaleValue_Err _)
      NoStaleValue_nonZero,
    (no_stale_value (1 : Int) (some "boom") [] (fun n : Int => n + 1) nonZero
      (Err (some "boom"))).2.2.2.2.2 (NoStaleValue_Err _)⟩

end result
